import Mathlib

/-!
Verification of the FEA falling-cable tutorial script
(`FEA/FEA_cable_collide_1.py`).

The script builds a cable of `ChElementCableANCF` beam elements between
`ChNodeFEAxyzD` nodes, anchors the first node to a fixed truss body and
runs a fixed-step render loop.  The setup code (node loop, element loop,
material, configuration constants) is embedded here directly from the
source.  Machine reals are embedded as rationals (`ℚ`), so the arithmetic
of the source expressions is exact.

The time stepping itself (`application.DoStep`) and the setup validation
live inside the external engine, not in the script; those parts are
modelled from the specification and are marked as such in their doc
comments.
-/

/-- A 3-component vector over ℚ, embedding `chrono.ChVectorD`. -/
structure ChVectorD where
  x : ℚ
  y : ℚ
  z : ℚ
deriving DecidableEq

/-- Componentwise vector addition. -/
def ChVectorD.add (a b : ChVectorD) : ChVectorD :=
  ⟨a.x + b.x, a.y + b.y, a.z + b.z⟩

/-- Scalar multiplication of a vector. -/
def ChVectorD.smul (c : ℚ) (a : ChVectorD) : ChVectorD :=
  ⟨c * a.x, c * a.y, c * a.z⟩

/-- Beam length in meters, `length = 1.2` in the source. -/
def cable_length : ℚ := 6 / 5

/-- Number of nodes, `N_nodes = 16` in the source. -/
def N_nodes : Nat := 16

/-- Gravitational acceleration set by `system.Set_G_acc(chrono.ChVectorD(0, -9.81, 0))`. -/
def g_acc : ChVectorD := ⟨0, -981 / 100, 0⟩

/-- Step size passed to `application.SetTimestep(0.01)`. -/
def timestep : ℚ := 1 / 100

/-- A `fea.ChNodeFEAxyzD` node: position plus tangent direction. -/
structure ChNodeFEAxyzD where
  position : ChVectorD
  direction : ChVectorD
deriving DecidableEq

/-- The node built at iteration `i_ni` of the node-creation loop:
position `(length * (i_ni / (N_nodes - 1)), 0.5, 0)`, direction `(1, 0, 0)`. -/
def mkNode (nNodes : Nat) (len : ℚ) (i_ni : Nat) : ChNodeFEAxyzD :=
  { position := ⟨len * ((i_ni : ℚ) / ((nNodes : ℚ) - 1)), 1 / 2, 0⟩
    direction := ⟨1, 0, 0⟩ }

/-- The node-creation loop `for i_ni in range(N_nodes)`: the list of nodes
appended to `beam_nodes`, in creation order. -/
def mkNodes (nNodes : Nat) (len : ℚ) : List ChNodeFEAxyzD :=
  (List.range nNodes).map (mkNode nNodes len)

/-- The `beam_nodes` list of the script: 16 nodes along a 1.2-unit segment. -/
def beam_nodes : List ChNodeFEAxyzD := mkNodes N_nodes cable_length

/-- A `fea.ChElementCableANCF` element: the indices (into `beam_nodes`) of its
two nodes set by `SetNodes`, and the index (into the list of materials created
by the script) of the section set by `SetSection`. -/
structure ChElementCableANCF where
  nodeA : Nat
  nodeB : Nat
  sectionMaterial : Nat
deriving DecidableEq

/-- The element-creation loop `for ie in range(N_nodes - 1)`: element `ie`
gets `SetNodes(beam_nodes[ie], beam_nodes[ie + 1])` and
`SetSection(beam_material)`, the single material (index 0). -/
def mkElements (nNodes : Nat) : List ChElementCableANCF :=
  (List.range (nNodes - 1)).map (fun ie => ⟨ie, ie + 1, 0⟩)

/-- The elements added to the mesh by the script. -/
def mesh_elements : List ChElementCableANCF := mkElements N_nodes

/-- A `fea.ChBeamSectionCable` material. -/
structure ChBeamSectionCable where
  diameter : ℚ
  young_modulus : ℚ
  rayleigh_damping : ℚ
deriving DecidableEq

/-- A setter call on a `ChBeamSectionCable`. -/
inductive MaterialOp where
  | setDiameter (v : ℚ)
  | setYoungModulus (v : ℚ)
  | setBeamRaleyghDamping (v : ℚ)
deriving DecidableEq

/-- The material setter calls the script performs, in source order:
`SetDiameter(0.01)`, `SetYoungModulus(0.01e9)`, `SetBeamRaleyghDamping(0.01)`. -/
def material_ops : List MaterialOp :=
  [MaterialOp.setDiameter (1 / 100),
   MaterialOp.setYoungModulus 10000000,
   MaterialOp.setBeamRaleyghDamping (1 / 100)]

/-- Effect of one setter call on the material. -/
def applyMaterialOp (m : ChBeamSectionCable) : MaterialOp → ChBeamSectionCable
  | MaterialOp.setDiameter v => { m with diameter := v }
  | MaterialOp.setYoungModulus v => { m with young_modulus := v }
  | MaterialOp.setBeamRaleyghDamping v => { m with rayleigh_damping := v }

/-- The `beam_material` object after the script's setter calls
(fields start unset, embedded as 0). -/
def beam_material : ChBeamSectionCable :=
  material_ops.foldl applyMaterialOp ⟨0, 0, 0⟩

/-- The materials created by the script: exactly one, `beam_material`. -/
def materials_created : List ChBeamSectionCable := [beam_material]

/-- Modelled from the spec: the per-node state advanced by the engine's
`DoStep` (the external engine code is not part of the repository).  Per the
spec's data model, a node carries position, tangent direction and an
anchored flag; a velocity component is carried so that a fixed-size step
can integrate gravity. -/
structure SimNode where
  position : ChVectorD
  direction : ChVectorD
  velocity : ChVectorD
  anchored : Bool
deriving DecidableEq

/-- Modelled from the spec: one step of the time-stepping loop for a single
node.  The spec's step "invokes the solver to compute new node states
subject to constraints and gravity": an anchored node's degrees of freedom
are non-free and stay unchanged; a free node integrates gravity over the
fixed step size. -/
def stepNode (g : ChVectorD) (dt : ℚ) (n : SimNode) : SimNode :=
  if n.anchored then n
  else
    let v := ChVectorD.add n.velocity (ChVectorD.smul dt g)
    { n with velocity := v, position := ChVectorD.add n.position (ChVectorD.smul dt v) }

/-- Modelled from the spec: one step of the time-stepping loop commits the
new states of all nodes. -/
def doStep (g : ChVectorD) (dt : ℚ) (ns : List SimNode) : List SimNode :=
  ns.map (stepNode g dt)

/-- The initial simulation state of the script: the 16 `beam_nodes` at rest,
with node 0 anchored to the fixed truss by `constraint_pos`. -/
def initSimNodes : List SimNode :=
  (List.range N_nodes).map (fun i =>
    { position := (mkNode N_nodes cable_length i).position
      direction := (mkNode N_nodes cable_length i).direction
      velocity := ⟨0, 0, 0⟩
      anchored := decide (i = 0) })

/-- Node `i` of a simulation state (a default node past the end). -/
def nodeAt (ns : List SimNode) (i : Nat) : SimNode :=
  ns.getD i { position := ⟨0, 0, 0⟩, direction := ⟨0, 0, 0⟩
              velocity := ⟨0, 0, 0⟩, anchored := false }

/-- Iterated stepping: the state after `k` steps. -/
def runSim (g : ChVectorD) (dt : ℚ) (ns : List SimNode) : Nat → List SimNode
  | 0 => ns
  | k + 1 => doStep g dt (runSim g dt ns k)

/-- The trajectory of the first `k` states (positions and directions are
components of each `SimNode`). -/
def trajectory (g : ChVectorD) (dt : ℚ) (ns : List SimNode) (k : Nat) :
    List (List SimNode) :=
  (List.range k).map (runSim g dt ns)

/-- The configuration inputs of the script, all assigned during setup:
gravity vector, node count, cable length, material fields, solver iteration
cap and tolerance, step size. -/
structure Config where
  gravity : ChVectorD
  nodeCount : Nat
  cableLen : ℚ
  diameter : ℚ
  youngModulus : ℚ
  damping : ℚ
  maxIterations : Nat
  tolerance : ℚ
  stepSize : ℚ
deriving DecidableEq

/-- The configuration the script assembles during setup:
`Set_G_acc(0, -9.81, 0)`, 16 nodes, length 1.2, `SetDiameter(0.01)`,
`SetYoungModulus(0.01e9)`, `SetBeamRaleyghDamping(0.01)`,
`SetMaxIterations(200)`, `SetTolerance(1e-10)`, `SetTimestep(0.01)`. -/
def setupConfig : Config :=
  { gravity := ⟨0, -981 / 100, 0⟩
    nodeCount := 16
    cableLen := 6 / 5
    diameter := 1 / 100
    youngModulus := 10000000
    damping := 1 / 100
    maxIterations := 200
    tolerance := 1 / 10000000000
    stepSize := 1 / 100 }

/-- The state carried through the render loop: the configuration and the
node states. -/
structure SimState where
  config : Config
  nodes : List SimNode
deriving DecidableEq

/-- One iteration of the render loop `while application.GetDevice().run()`:
the body only renders and calls `application.DoStep()`, which advances the
nodes by the configured step size and leaves the configuration untouched. -/
def loopIter (st : SimState) : SimState :=
  { st with nodes := doStep st.config.gravity st.config.stepSize st.nodes }

/-- The render loop after `k` iterations from state `st`. -/
def loopRun (st : SimState) : Nat → SimState
  | 0 => st
  | k + 1 => loopIter (loopRun st k)

/-- Phase of the time-stepping loop state machine (spec: Idle, Running,
terminal Stopped). -/
inductive LoopPhase where
  | Idle
  | Running
  | Stopped
deriving DecidableEq

/-- A per-step error surfaced by the loop. -/
inductive StepError where
  | SolverNonConvergence
deriving DecidableEq

/-- Modelled from the spec: the state of the time-stepping loop state
machine, including the current step size and the last error surfaced to
the caller. -/
structure LoopState where
  phase : LoopPhase
  dt : ℚ
  nodes : List SimNode
  lastError : Option StepError
deriving DecidableEq

/-- Modelled from the spec: one step request of the time-stepping loop,
with the engine's solver abstracted as a function `solve` that returns the
committed node states or `none` on non-convergence within the iteration
cap.  On non-convergence the step is retried exactly once at the reduced
step size, and if the retry also fails the loop transitions to the
terminal `Stopped` phase and surfaces the error. -/
def stepWithRetry (solve : ℚ → List SimNode → Option (List SimNode))
    (st : LoopState) : LoopState :=
  match solve st.dt st.nodes with
  | some ns => { st with phase := LoopPhase.Running, nodes := ns, lastError := none }
  | none =>
    match solve (st.dt / 2) st.nodes with
    | some ns => { st with phase := LoopPhase.Running, nodes := ns, lastError := none }
    | none => { st with phase := LoopPhase.Stopped,
                        lastError := some StepError.SolverNonConvergence }

/-- A solver that never converges, for exercising the retry path. -/
def failingSolve : ℚ → List SimNode → Option (List SimNode) := fun _ _ => none

/-- A concrete loop state: the script's initial nodes, step size 0.01. -/
def demoLoopState : LoopState :=
  { phase := LoopPhase.Running, dt := timestep, nodes := initSimNodes, lastError := none }

/-- A configuration error detected during setup validation. -/
inductive ConfigError where
  | nonPositiveNodeCount (n : Int)
  | nonPositiveCableLength (len : ℚ)
deriving DecidableEq

/-- A fully constructed cable system: nodes, elements and the anchored
node index. -/
structure CableSystem where
  nodes : List ChNodeFEAxyzD
  elements : List ChElementCableANCF
  anchoredNode : Nat
deriving DecidableEq

/-- Modelled from the spec: setup validation (the script hardcodes a valid
configuration; the engine-side validation is not in the repository).  An
invalid configuration — a non-positive node count or a non-positive cable
length — is rejected with a descriptive error before any node, element or
constraint is constructed, so the result is either an error or a complete
system. -/
def setup (nNodes : Int) (len : ℚ) : Except ConfigError CableSystem :=
  if nNodes ≤ 0 then Except.error (ConfigError.nonPositiveNodeCount nNodes)
  else if len ≤ 0 then Except.error (ConfigError.nonPositiveCableLength len)
  else Except.ok
    { nodes := mkNodes nNodes.toNat len
      elements := mkElements nNodes.toNat
      anchoredNode := 0 }

/-- C1: for every node count `n ≥ 2` the element-creation loop produces
exactly `n - 1` elements; element `i` connects node `i` and node `i + 1`
of the ordered node list, and no pair of nodes is repeated. -/
theorem element_loop_consecutive (n : Nat) (_h2 : 2 ≤ n) :
    (mkElements n).length = n - 1 ∧
    (∀ i (hi : i < (mkElements n).length),
      ((mkElements n).get ⟨i, hi⟩).nodeA = i ∧
      ((mkElements n).get ⟨i, hi⟩).nodeB = i + 1) ∧
    ((mkElements n).map (fun e => (e.nodeA, e.nodeB))).Nodup := by
  refine ⟨by simp [mkElements], ?_, ?_⟩
  · intro i hi
    simp [mkElements]
  · have : (mkElements n).map (fun e => (e.nodeA, e.nodeB)) =
        (List.range (n - 1)).map (fun ie => (ie, ie + 1)) := by
      simp [mkElements]
    rw [this]
    exact (List.nodup_range (n - 1)).map (fun a b hab => by
      simpa using congrArg Prod.fst hab)

/-- Witness for C1 at the script's node count 16. -/
theorem element_loop_consecutive_witness :
    2 ≤ 16 ∧
    ((mkElements 16).length = 16 - 1 ∧
     (∀ i (hi : i < (mkElements 16).length),
       ((mkElements 16).get ⟨i, hi⟩).nodeA = i ∧
       ((mkElements 16).get ⟨i, hi⟩).nodeB = i + 1) ∧
     ((mkElements 16).map (fun e => (e.nodeA, e.nodeB))).Nodup) :=
  ⟨by decide, element_loop_consecutive 16 (by decide)⟩

/-- C6: the node-creation loop creates exactly 16 nodes on a straight
1.2-unit segment with uniform spacing: node `i` sits at
`(1.2 * i / 15, 0.5, 0)`. -/
theorem node_loop_positions :
    beam_nodes.length = 16 ∧
    ∀ i : Fin 16, beam_nodes[(i : Nat)]? =
      some { position := ⟨6 / 5 * ((i : Nat) : ℚ) / 15, 1 / 2, 0⟩
             direction := ⟨1, 0, 0⟩ } := by
  refine ⟨rfl, ?_⟩
  intro i
  fin_cases i <;> simp [beam_nodes, mkNodes, mkNode, N_nodes, cable_length] <;>
    norm_num

/-- C10: every index used by the element-creation loop is in bounds: for
each `ie` in `range (n - 1)`, both `beam_nodes[ie]` and
`beam_nodes[ie + 1]` index the node list of length `n`. -/
theorem element_indexing_in_bounds (n : Nat) (len : ℚ) (ie : Nat)
    (h : ie < n - 1) :
    ie < (mkNodes n len).length ∧ ie + 1 < (mkNodes n len).length := by
  have hl : (mkNodes n len).length = n := by simp [mkNodes]
  omega

/-- Witness for C10 at the script's configuration and the last loop index. -/
theorem element_indexing_in_bounds_witness :
    14 < 16 - 1 ∧
    (14 < (mkNodes 16 (6 / 5)).length ∧ 14 + 1 < (mkNodes 16 (6 / 5)).length) :=
  ⟨by decide, element_indexing_in_bounds 16 (6 / 5) 14 (by decide)⟩

/-- C2: with gravity `(0, -9.81, 0)` and node 0 the only anchored node,
after one step the free end node (node 15) has a y-position strictly
below its initial value 0.5. -/
theorem free_end_falls_after_one_step :
    (nodeAt (doStep g_acc timestep initSimNodes) 15).position.y < 1 / 2 ∧
    (doStep g_acc timestep initSimNodes).length = 16 := by
  constructor
  · norm_num [nodeAt, doStep, stepNode, initSimNodes, N_nodes, mkNode,
      cable_length, g_acc, timestep, ChVectorD.add, ChVectorD.smul,
      List.range_succ]
  · simp [doStep, initSimNodes, N_nodes]

/-- C3: if node 0 is anchored, one step with a zero gravity vector leaves
node 0's state (in particular its position) unchanged. -/
theorem anchored_node_fixed (ns : List SimNode) (dt : ℚ) (n0 : SimNode)
    (h0 : ns[0]? = some n0) (ha : n0.anchored = true) :
    (doStep ⟨0, 0, 0⟩ dt ns)[0]? = some n0 := by
  simp [doStep, List.getElem?_map, h0, stepNode, ha]

/-- The initial state of node 0 in the script: anchored, at the origin end
of the cable. -/
def anchoredNode0 : SimNode :=
  { position := ⟨0, 1 / 2, 0⟩, direction := ⟨1, 0, 0⟩
    velocity := ⟨0, 0, 0⟩, anchored := true }

/-- Witness for C3 at the script's initial state. -/
theorem anchored_node_fixed_witness :
    initSimNodes[0]? = some anchoredNode0 ∧ anchoredNode0.anchored = true ∧
    (doStep ⟨0, 0, 0⟩ timestep initSimNodes)[0]? = some anchoredNode0 :=
  ⟨by simp [initSimNodes, anchoredNode0, N_nodes, mkNode, cable_length,
      List.range_succ],
   rfl,
   anchored_node_fixed initSimNodes timestep anchoredNode0
     (by simp [initSimNodes, anchoredNode0, N_nodes, mkNode, cable_length,
        List.range_succ])
     rfl⟩

/-- C4: stepping is deterministic: two runs from identical initial states
produce identical trajectories of node states (positions and directions)
at every step count. -/
theorem two_run_determinism (g : ChVectorD) (dt : ℚ) (ns1 ns2 : List SimNode)
    (h : ns1 = ns2) (k : Nat) :
    trajectory g dt ns1 k = trajectory g dt ns2 k := by
  rw [h]

/-- Witness for C4 at the script's configuration. -/
theorem two_run_determinism_witness :
    initSimNodes = initSimNodes ∧
    trajectory g_acc timestep initSimNodes 3 = trajectory g_acc timestep initSimNodes 3 :=
  ⟨rfl, two_run_determinism g_acc timestep initSimNodes initSimNodes rfl 3⟩

/-- C5: the configuration assembled at setup is never mutated by the render
loop: after any number of loop iterations the configuration is still
`setupConfig`, and every iteration uses its fixed step size 0.01. -/
theorem config_assigned_once (k : Nat) :
    (loopRun { config := setupConfig, nodes := initSimNodes } k).config = setupConfig ∧
    (loopRun { config := setupConfig, nodes := initSimNodes } k).config.stepSize = 1 / 100 := by
  have h : ∀ m, (loopRun { config := setupConfig, nodes := initSimNodes } m).config = setupConfig := by
    intro m
    induction m with
    | zero => rfl
    | succ m ih => simp [loopRun, loopIter, ih]
  exact ⟨h k, by rw [h k]; rfl⟩

/-- C7: exactly one material is created, every element references it (the
single material, index 0), its fields hold the values of the three setter
calls, and each setter is invoked exactly once (no later mutation). -/
theorem material_single_shared_immutable :
    materials_created.length = 1 ∧
    mesh_elements.all (fun e => e.sectionMaterial == 0) = true ∧
    beam_material = ⟨1 / 100, 10000000, 1 / 100⟩ ∧
    material_ops.countP
      (fun op => match op with | MaterialOp.setDiameter _ => true | _ => false) = 1 ∧
    material_ops.countP
      (fun op => match op with | MaterialOp.setYoungModulus _ => true | _ => false) = 1 ∧
    material_ops.countP
      (fun op => match op with | MaterialOp.setBeamRaleyghDamping _ => true | _ => false) = 1 :=
  ⟨rfl, rfl, rfl, rfl, rfl, rfl⟩

/-- C8: when a step fails with solver non-convergence, the loop retries
that step exactly once at the reduced step size (half, which is strictly
smaller for a positive step size); if the retry succeeds the loop keeps
running with the retried states, and if the retry also fails the loop
transitions to the terminal `Stopped` phase and surfaces the error. -/
theorem step_retry_then_stop (solve : ℚ → List SimNode → Option (List SimNode))
    (st : LoopState) (hfail : solve st.dt st.nodes = none) :
    (∀ ns, solve (st.dt / 2) st.nodes = some ns →
      stepWithRetry solve st =
        { st with phase := LoopPhase.Running, nodes := ns, lastError := none }) ∧
    (solve (st.dt / 2) st.nodes = none →
      stepWithRetry solve st =
        { st with phase := LoopPhase.Stopped,
                  lastError := some StepError.SolverNonConvergence }) ∧
    (0 < st.dt → st.dt / 2 < st.dt) := by
  refine ⟨?_, ?_, ?_⟩
  · intro ns hretry
    simp [stepWithRetry, hfail, hretry]
  · intro hretry
    simp [stepWithRetry, hfail, hretry]
  · intro hpos
    linarith

/-- Witness for C8: a solver that never converges drives the loop from the
script's state to `Stopped`. -/
theorem step_retry_then_stop_witness :
    failingSolve demoLoopState.dt demoLoopState.nodes = none ∧
    ((∀ ns, failingSolve (demoLoopState.dt / 2) demoLoopState.nodes = some ns →
      stepWithRetry failingSolve demoLoopState =
        { demoLoopState with phase := LoopPhase.Running, nodes := ns, lastError := none }) ∧
     (failingSolve (demoLoopState.dt / 2) demoLoopState.nodes = none →
      stepWithRetry failingSolve demoLoopState =
        { demoLoopState with phase := LoopPhase.Stopped,
                             lastError := some StepError.SolverNonConvergence }) ∧
     (0 < demoLoopState.dt → demoLoopState.dt / 2 < demoLoopState.dt)) :=
  ⟨rfl, step_retry_then_stop failingSolve demoLoopState rfl⟩

/-- C9: an invalid configuration (non-positive node count or non-positive
cable length) is rejected by setup with a descriptive error, and no
system — not even an incomplete one — is constructed. -/
theorem invalid_config_rejected (nNodes : Int) (len : ℚ)
    (h : nNodes ≤ 0 ∨ len ≤ 0) :
    ∃ e, setup nNodes len = Except.error e := by
  by_cases h1 : nNodes ≤ 0
  · exact ⟨ConfigError.nonPositiveNodeCount nNodes, by simp [setup, h1]⟩
  · rcases h with h2 | h2
    · exact absurd h2 h1
    · exact ⟨ConfigError.nonPositiveCableLength len, by simp [setup, h1, h2]⟩

/-- Witness for C9 at a zero node count with the script's cable length. -/
theorem invalid_config_rejected_witness :
    ((0 : Int) ≤ 0 ∨ (6 / 5 : ℚ) ≤ 0) ∧
    ∃ e, setup 0 (6 / 5) = Except.error e :=
  ⟨Or.inl (by decide), invalid_config_rejected 0 (6 / 5) (Or.inl (by decide))⟩
